import Mathlib

/-!
Verification development for the pyiceberg table module
(src/python/pyiceberg/table/__init__.py): a shallow embedding of the
scan planner, the schema-evolution builder and the transaction/commit
machinery, together with theorems settling the specification claims.

Python conventions are modelled explicitly:
* fallible code returns `Except PyError`;
* Python's `x or d` on optional integers maps `None` and `0` to `d`
  (`pyOrNat`);
* dictionaries keyed by integers are association lists.

Collaborators that are not part of src/ (the schema module, the
expression evaluators, the manifest reader, the SQL parser and the
catalog client) are either modelled from the spec (marked
`Modelled from the spec:`) or taken as function parameters.
-/

/-- Kinds of Python exceptions raised by the embedded code.  The source
raises `ValueError` for validation failures; `typeError` models the
`TypeError` raised by calling `tuple` with more than one positional
argument; `stopIteration` models an uncaught `StopIteration` from
`next`; `unsupportedFeature` and `invariantViolation` are the two
`ValueError`s of `DataScan.plan_files` (equality deletes, unknown
content kind), distinguished here the way the spec's error taxonomy
names them. -/
inductive PyError where
  | valueError
  | typeError
  | stopIteration
  | unsupportedFeature
  | invariantViolation
deriving DecidableEq, Repr

/-- Python's `x or d` for an optional integer: `None` and `0` are falsy. -/
def pyOrNat (x : Option Nat) (d : Nat) : Nat :=
  match x with
  | none => d
  | some n => if n = 0 then d else n

/-- Python truthiness of an optional integer (`if self.snapshot_id:`). -/
def pyTruthyNat (x : Option Nat) : Bool :=
  match x with
  | none => false
  | some n => n != 0

/-- pyiceberg.table.metadata.INITIAL_SEQUENCE_NUMBER. -/
def INITIAL_SEQUENCE_NUMBER : Nat := 0

/-- pyiceberg.table.TABLE_ROOT_ID. -/
def TABLE_ROOT_ID : Int := -1

mutual
/-- Modelled from the spec: the type grammar of pyiceberg.types (not in
src/): primitive types plus struct, list and map, with list and map
carrying element/key/value ids as in the spec's data model. -/
inductive IcebergType where
  | booleanType
  | integerType
  | longType
  | floatType
  | doubleType
  | decimalType (precision : Nat) (scale : Nat)
  | dateType
  | stringType
  | binaryType
  | structType (fields : List NestedField)
  | listType (element_id : Nat) (element_type : IcebergType) (element_required : Bool)
  | mapType (key_id : Nat) (key_type : IcebergType) (value_id : Nat)
      (value_type : IcebergType) (value_required : Bool)

/-- Modelled from the spec: pyiceberg.types.NestedField (not in src/): a
field has a stable integer id, a name, a type, a required flag and an
optional doc string. -/
inductive NestedField where
  | mk (field_id : Nat) (name : String) (field_type : IcebergType)
      (required : Bool) (doc : Option String)
end

def NestedField.field_id : NestedField → Nat
  | .mk i _ _ _ _ => i

def NestedField.name : NestedField → String
  | .mk _ n _ _ _ => n

def NestedField.field_type : NestedField → IcebergType
  | .mk _ _ t _ _ => t

def NestedField.required : NestedField → Bool
  | .mk _ _ _ r _ => r

def NestedField.doc : NestedField → Option String
  | .mk _ _ _ _ d => d

/-- NestedField.optional in pyiceberg is the negation of required. -/
def NestedField.optional (f : NestedField) : Bool := !f.required

mutual
/-- Structural equality of types (pydantic model equality). -/
def beqType : IcebergType → IcebergType → Bool
  | .booleanType, .booleanType => true
  | .integerType, .integerType => true
  | .longType, .longType => true
  | .floatType, .floatType => true
  | .doubleType, .doubleType => true
  | .decimalType p s, .decimalType p' s' => p == p' && s == s'
  | .dateType, .dateType => true
  | .stringType, .stringType => true
  | .binaryType, .binaryType => true
  | .structType fs, .structType fs' => beqFields fs fs'
  | .listType i t r, .listType i' t' r' => i == i' && beqType t t' && r == r'
  | .mapType ki kt vi vt vr, .mapType ki' kt' vi' vt' vr' =>
      ki == ki' && beqType kt kt' && vi == vi' && beqType vt vt' && vr == vr'
  | _, _ => false

/-- Structural equality of field lists. -/
def beqFields : List NestedField → List NestedField → Bool
  | [], [] => true
  | f :: fs, g :: gs => beqField f g && beqFields fs gs
  | _, _ => false

/-- Structural equality of fields (pydantic model equality). -/
def beqField : NestedField → NestedField → Bool
  | .mk i n t r d, .mk i' n' t' r' d' =>
      i == i' && n == n' && beqType t t' && r == r' && d == d'
end

instance : BEq IcebergType := ⟨beqType⟩

instance : BEq NestedField := ⟨beqField⟩

/-- IcebergType.is_struct. -/
def IcebergType.is_struct : IcebergType → Bool
  | .structType _ => true
  | _ => false

/-- Fields of a struct type (`struct.fields`; empty on non-structs). -/
def IcebergType.fieldsOf : IcebergType → List NestedField
  | .structType fs => fs
  | _ => []

/-- Modelled from the spec: a schema is an ordered tree of fields and
carries a schema id (pyiceberg.schema.Schema, not in src/). -/
structure Schema where
  fields : List NestedField
  schema_id : Nat

/-- Name comparison under a case-sensitivity flag.  All concrete inputs
in this development are case-sensitive; the insensitive branch mirrors
the spec's "case-sensitive by default" binding rule. -/
def nameMatches (case_sensitive : Bool) (candidate target : String) : Bool :=
  if case_sensitive then candidate == target
  else candidate.toLower == target.toLower

/-- Modelled from the spec: the struct fields a dotted path descends
into under a field of the given type: a struct contributes its own
fields, a list descends into its element field and a map into its value
field; primitives have none. -/
def structFieldsOfDeep : IcebergType → List NestedField
  | .structType fs => fs
  | .listType _ et _ => structFieldsOfDeep et
  | .mapType _ _ _ vt _ => structFieldsOfDeep vt
  | _ => []

/-- Modelled from the spec: dotted-path field lookup descends through
structs; a list descends into its element field and a map into its value
field (`find_field`, pyiceberg.schema, not in src/).  The path is the
list of dotted-name components. -/
def findFieldList (fields : List NestedField) (path : List String)
    (case_sensitive : Bool) : Option NestedField :=
  match path with
  | [] => none
  | name :: rest =>
    match fields.find? (fun f => nameMatches case_sensitive f.name name) with
    | none => none
    | some f =>
      if rest.isEmpty then some f
      else findFieldList (structFieldsOfDeep f.field_type) rest case_sensitive

/-- Modelled from the spec: `Schema.find_field(path, case_sensitive)`
resolves a dotted path in the schema's field tree. -/
def Schema.find_field (s : Schema) (path : List String)
    (case_sensitive : Bool) : Option NestedField :=
  findFieldList s.fields path case_sensitive

mutual
/-- Modelled from the spec: the largest field id occurring in a type
tree, element/key/value ids included (`highest_field_id` support,
pyiceberg.schema, not in src/). -/
def typeMaxFieldId : IcebergType → Nat
  | .structType fs => fieldsMaxFieldId fs
  | .listType eid et _ => max eid (typeMaxFieldId et)
  | .mapType kid kt vid vt _ =>
      max (max kid (typeMaxFieldId kt)) (max vid (typeMaxFieldId vt))
  | _ => 0

/-- Modelled from the spec: the largest field id of a field list. -/
def fieldsMaxFieldId : List NestedField → Nat
  | [] => 0
  | .mk i _ t _ _ :: fs => max (max i (typeMaxFieldId t)) (fieldsMaxFieldId fs)
end

/-- Modelled from the spec: `Schema.highest_field_id` is the max of all
ids in the tree. -/
def Schema.highest_field_id (s : Schema) : Nat :=
  fieldsMaxFieldId s.fields

mutual
/-- Modelled from the spec: the full dotted names of every field in a
type tree, used for `Schema.column_names` (pyiceberg.schema, not in
src/). -/
def typeColumnNames (prefix_ : String) : IcebergType → List String
  | .structType fs => fieldsColumnNames prefix_ fs
  | .listType _ et _ => typeColumnNames prefix_ et
  | .mapType _ _ _ vt _ => typeColumnNames prefix_ vt
  | _ => []

/-- Modelled from the spec: dotted names contributed by a field list. -/
def fieldsColumnNames (prefix_ : String) : List NestedField → List String
  | [] => []
  | .mk _ n t _ _ :: fs =>
      let full := if prefix_ == "" then n else prefix_ ++ "." ++ n
      (full :: typeColumnNames full t) ++ fieldsColumnNames prefix_ fs
end

/-- Modelled from the spec: `Schema.column_names`, the dotted names of
all fields of the schema. -/
def Schema.column_names (s : Schema) : List String :=
  fieldsColumnNames "" s.fields

mutual
/-- Modelled from the spec: `assign_fresh_schema_ids(type, allocator)`
produces a structurally identical type with fresh ids drawn from the
allocator (pyiceberg.schema, not in src/).  The allocator is the
builder's `_last_column_id` counter, threaded through. -/
def assignFreshType : IcebergType → Nat → IcebergType × Nat
  | .structType fs, c =>
      let r := assignFreshFields fs c
      (.structType r.1, r.2)
  | .listType _ et ereq, c =>
      let eid := c
      let r := assignFreshType et (c + 1)
      (.listType eid r.1 ereq, r.2)
  | .mapType _ kt _ vt vreq, c =>
      let kid := c
      let rk := assignFreshType kt (c + 1)
      let vid := rk.2
      let rv := assignFreshType vt (rk.2 + 1)
      (.mapType kid rk.1 vid rv.1 vreq, rv.2)
  | prim, c => (prim, c)

/-- Modelled from the spec: fresh-id assignment over a field list. -/
def assignFreshFields : List NestedField → Nat → List NestedField × Nat
  | [], c => ([], c)
  | .mk _ n t req doc :: fs, c =>
      let fid := c
      let rt := assignFreshType t (c + 1)
      let rr := assignFreshFields fs rt.2
      (.mk fid n rt.1 req doc :: rr.1, rr.2)
end

/-- DataFileContent values (pyiceberg.manifest, not in src/): the wire
encoding is an open integer, `0 = DATA`, `1 = POSITION_DELETES`,
`2 = EQUALITY_DELETES`; other values are the "unknown content" case of
`DataScan.plan_files`. -/
def DataFileContent.DATA : Nat := 0

def DataFileContent.POSITION_DELETES : Nat := 1

def DataFileContent.EQUALITY_DELETES : Nat := 2

/-- ManifestContent (pyiceberg.manifest, not in src/): a manifest lists
either data files or delete files. -/
inductive ManifestContent where
  | data
  | deletes
deriving DecidableEq, Repr

/-- Modelled from the spec: the per-file row of a manifest entry that the
planner consumes (pyiceberg.manifest.DataFile, not in src/): content
kind, URI, size, record count, and the lower/upper bound of the
`file_path` column of a positional delete file (the only column bounds
the code under verification reads; spec: "Positional delete files
contain a file_path string column whose min/max bounds are consulted at
plan time"). -/
structure DataFile where
  content : Nat
  file_path : String
  file_size_in_bytes : Nat
  record_count : Nat
  lower_bound_file_path : Option String
  upper_bound_file_path : Option String
deriving DecidableEq, Repr

/-- Manifest-entry status values (pyiceberg.manifest, not in src/):
`2 = DELETED`; `fetch_manifest_entry(io, discard_deleted=True)` drops
deleted entries. -/
def ManifestEntryStatus.DELETED : Nat := 2

/-- Modelled from the spec: one row of a manifest: the described file,
its status and its data sequence number (pyiceberg.manifest.ManifestEntry,
not in src/). -/
structure ManifestEntry where
  status : Nat
  data_sequence_number : Option Nat
  data_file : DataFile
deriving DecidableEq, Repr

/-- Modelled from the spec: a manifest file: content kind, sequence
numbers, the id of the partition spec its entries were written under,
and its entries (pyiceberg.manifest.ManifestFile, not in src/; the Avro
I/O of `fetch_manifest_entry` is modelled by storing the entries). -/
structure ManifestFile where
  content : ManifestContent
  sequence_number : Option Nat
  min_sequence_number : Option Nat
  partition_spec_id : Nat
  entries : List ManifestEntry
deriving DecidableEq, Repr

/-- Modelled from the spec: `manifest.fetch_manifest_entry(io,
discard_deleted=True)` streams the manifest's entries, dropping entries
whose status is DELETED. -/
def fetchManifestEntries (m : ManifestFile) : List ManifestEntry :=
  m.entries.filter (fun e => e.status != ManifestEntryStatus.DELETED)

/-- Reducible lexicographic comparison of strings by character code,
standing in for Python's `<=` on the `file_path` bound values. -/
def charListLe : List Char → List Char → Bool
  | [], _ => true
  | _ :: _, [] => false
  | x :: xs, y :: ys =>
      if x.toNat < y.toNat then true
      else if y.toNat < x.toNat then false
      else charListLe xs ys

/-- String comparison used by the file-path bounds evaluator. -/
def strLe (a b : String) : Bool := charListLe a.data b.data

/-- Modelled from the spec: the inclusive metrics evaluator
(pyiceberg.expressions.visitors._InclusiveMetricsEvaluator, not in
src/) specialised to the predicate `file_path = p` over the
positional-delete schema, as `_match_deletes_to_datafile` builds it: a
file with no records cannot match (`include_empty_files` is not set
here); otherwise `EqualTo v` may match iff `lower ≤ v ≤ upper`, a
missing bound imposing no constraint. -/
def posDeleteEvalFilePath (p : String) (df : DataFile) : Bool :=
  if df.record_count = 0 then false
  else
    (match df.lower_bound_file_path with
     | none => true
     | some lo => strLe lo p) &&
    (match df.upper_bound_file_path with
     | none => true
     | some hi => strLe p hi)

/-- Modelled from the spec: a named ref (branch or tag) maps a name to a
snapshot id (pyiceberg.table.refs, not in src/). -/
structure SnapshotRef where
  snapshot_id : Nat
deriving DecidableEq, Repr

/-- Modelled from the spec: a snapshot names a manifest list; the Avro
manifest-list I/O of `Snapshot.manifests(io)` is modelled by storing the
manifest files (pyiceberg.table.snapshots, not in src/). -/
structure Snapshot where
  snapshot_id : Nat
  schema_id : Option Nat
  manifests : List ManifestFile
deriving DecidableEq, Repr

/-- Modelled from the spec: the slice of TableMetadata the verified code
reads (pyiceberg.table.metadata, not in src/). -/
structure TableMetadata where
  snapshots : List Snapshot
  refs : List (String × SnapshotRef)
  current_snapshot_id : Option Nat
deriving DecidableEq, Repr

/-- The Table handle: identifier, metadata and metadata location
(`Table.__init__`).  The FileIO and Catalog collaborators are out of
scope; where the code calls them they appear as function parameters. -/
structure Table where
  identifier : List String
  metadata : TableMetadata
  metadata_location : String
deriving DecidableEq, Repr

/-- Table.snapshot_by_id: the first snapshot with the given id, None when
there is no match. -/
def Table.snapshot_by_id (t : Table) (snapshot_id : Nat) : Option Snapshot :=
  t.metadata.snapshots.find? (fun s => s.snapshot_id == snapshot_id)

/-- Table.snapshot_by_name: `if ref := self.metadata.refs.get(name):
return self.snapshot_by_id(ref.snapshot_id)`. -/
def Table.snapshot_by_name (t : Table) (name : String) : Option Snapshot :=
  match t.metadata.refs.find? (fun kv => kv.fst == name) with
  | some kv => t.snapshot_by_id kv.snd.snapshot_id
  | none => none

/-- Table.current_snapshot: `if snapshot_id := self.metadata.current_snapshot_id:`
(Python truthiness: a current_snapshot_id of 0 behaves like None). -/
def Table.current_snapshot (t : Table) : Option Snapshot :=
  if pyTruthyNat t.metadata.current_snapshot_id then
    t.snapshot_by_id (t.metadata.current_snapshot_id.getD 0)
  else none

/-- The predicate model (pyiceberg.expressions, not in src/): a boolean
tree as described in spec 4.A; atomic predicates are abstracted to an
opaque payload since the verified code only builds And nodes over them. -/
inductive BooleanExpression where
  | alwaysTrue
  | alwaysFalse
  | and (left : BooleanExpression) (right : BooleanExpression)
  | or (left : BooleanExpression) (right : BooleanExpression)
  | not (child : BooleanExpression)
  | atom (payload : String)
deriving DecidableEq, Repr

/-- A row filter argument: a string for the SQL-style parser or an
already-built expression (`Union[str, BooleanExpression]`). -/
inductive RowFilterArg where
  | str (s : String)
  | expr (e : BooleanExpression)
deriving DecidableEq, Repr

/-- `_parse_row_filter`: parse a string, pass an expression through.  The
SQL-style parser is an out-of-scope collaborator and is taken as the
function parameter `parseStr`. -/
def parseRowFilter (parseStr : String → BooleanExpression) :
    RowFilterArg → BooleanExpression
  | .str s => parseStr s
  | .expr e => e

/-- The state of a TableScan/DataScan (`TableScan.__init__`; the
row_filter has already been through `_parse_row_filter`). -/
structure TableScan where
  table : Table
  row_filter : BooleanExpression
  selected_fields : List String
  case_sensitive : Bool
  snapshot_id : Option Nat
  options : List (String × String)
  limit : Option Nat
deriving DecidableEq, Repr

/-- TableScan.snapshot: `if self.snapshot_id:` (truthiness) then look the
id up, else the current snapshot. -/
def TableScan.snapshot (s : TableScan) : Option Snapshot :=
  if pyTruthyNat s.snapshot_id then
    s.table.snapshot_by_id (s.snapshot_id.getD 0)
  else s.table.current_snapshot

/-- TableScan.use_ref: fails when a (truthy) snapshot id is already set,
resolves the ref name otherwise; an unknown ref fails.
`self.update(snapshot_id=...)` copies the scan with the field replaced. -/
def TableScan.use_ref (s : TableScan) (name : String) : Except PyError TableScan :=
  if pyTruthyNat s.snapshot_id then .error .valueError
  else
    match s.table.snapshot_by_name name with
    | some snapshot => .ok { s with snapshot_id := some snapshot.snapshot_id }
    | none => .error .valueError

/-- TableScan.filter: `self.update(row_filter=And(self.row_filter,
_parse_row_filter(expr)))`. -/
def TableScan.filter (parseStr : String → BooleanExpression) (s : TableScan)
    (expr : RowFilterArg) : TableScan :=
  { s with row_filter := .and s.row_filter (parseRowFilter parseStr expr) }

/-- FileScanTask with the `__init__` defaulting: no start/length are
passed by `plan_files`, so `start = 0` and
`length = data_file.file_size_in_bytes`; `delete_files` is the matched
set, modelled as a list. -/
structure FileScanTask where
  file : DataFile
  delete_files : List DataFile
  start : Nat
  length : Nat
deriving DecidableEq, Repr

/-- `_open_manifest`: fetch the manifest's entries discarding deleted
ones and keep those passing the partition filter and the metrics
evaluator. -/
def openManifest (m : ManifestFile) (partition_filter : DataFile → Bool)
    (metrics_evaluator : DataFile → Bool) : List ManifestEntry :=
  (fetchManifestEntries m).filter
    (fun e => partition_filter e.data_file && metrics_evaluator e.data_file)

/-- `_min_data_file_sequence_number`: the minimum of
`manifest.min_sequence_number or INITIAL_SEQUENCE_NUMBER` over DATA
manifests; Python's `min` of an empty iterator raises ValueError, caught
and turned into INITIAL_SEQUENCE_NUMBER. -/
def minDataFileSequenceNumber (manifests : List ManifestFile) : Nat :=
  let vals := (manifests.filter (fun m => m.content == ManifestContent.data)).map
    (fun m => pyOrNat m.min_sequence_number INITIAL_SEQUENCE_NUMBER)
  match vals with
  | [] => INITIAL_SEQUENCE_NUMBER
  | v :: vs => vs.foldl min v

/-- `DataScan._check_sequence_number`: keep a manifest iff it is a data
manifest, or a deletes manifest whose `sequence_number or
INITIAL_SEQUENCE_NUMBER` is at least the minimal data sequence number. -/
def checkSequenceNumber (min_data_sequence_number : Nat) (manifest : ManifestFile) : Bool :=
  manifest.content == ManifestContent.data ||
    (manifest.content == ManifestContent.deletes &&
      pyOrNat manifest.sequence_number INITIAL_SEQUENCE_NUMBER ≥ min_data_sequence_number)

/-- The sort key of the `SortedList` in `plan_files`:
`lambda entry: entry.data_sequence_number or INITIAL_SEQUENCE_NUMBER`. -/
def entryKey (e : ManifestEntry) : Nat :=
  pyOrNat e.data_sequence_number INITIAL_SEQUENCE_NUMBER

/-- The sort relation of the positional-delete SortedList. -/
def entryLE (a b : ManifestEntry) : Prop := entryKey a ≤ entryKey b

instance : DecidableRel entryLE := fun a b => Nat.decLe (entryKey a) (entryKey b)

instance : IsTotal ManifestEntry entryLE :=
  ⟨fun a b => Nat.le_total (entryKey a) (entryKey b)⟩

instance : IsTrans ManifestEntry entryLE :=
  ⟨fun _ _ _ h h' => Nat.le_trans h h'⟩

/-- `_match_deletes_to_datafile`: slice the sorted positional-delete
entries from the upper-bound position of the data entry's key
(`bisect_right`: for a list sorted ascending by key this is the suffix
of entries whose key is strictly greater), then keep the delete files
whose file_path bounds may contain the data file's path. -/
def matchDeletesToDatafile (data_entry : ManifestEntry)
    (positional_delete_entries : List ManifestEntry) : List DataFile :=
  let relevant_entries := positional_delete_entries.dropWhile
    (fun e => entryKey e ≤ entryKey data_entry)
  if relevant_entries.length > 0 then
    (relevant_entries.filter
      (fun e => posDeleteEvalFilePath data_entry.data_file.file_path e.data_file)).map
      (fun e => e.data_file)
  else []

/-- The entry loop of `plan_files`: split surviving entries into data
entries and positional-delete entries in stream order; an
EQUALITY_DELETES entry raises (spec: UnsupportedFeature), any other
unknown content kind raises (spec: InvariantViolation). -/
def partitionEntries : List ManifestEntry →
    Except PyError (List ManifestEntry × List ManifestEntry)
  | [] => .ok ([], [])
  | e :: rest =>
    if e.data_file.content == DataFileContent.DATA then
      (partitionEntries rest).map (fun r => (e :: r.1, r.2))
    else if e.data_file.content == DataFileContent.POSITION_DELETES then
      (partitionEntries rest).map (fun r => (r.1, e :: r.2))
    else if e.data_file.content == DataFileContent.EQUALITY_DELETES then
      .error .unsupportedFeature
    else
      .error .invariantViolation

/-- The manifests of the scan's snapshot surviving manifest pruning
(step 4: keep manifests accepted by the per-spec manifest evaluator).
The evaluator family is a parameter: it is built by
`_build_manifest_evaluator` from the out-of-scope expression module. -/
def survivingManifests (scan : TableScan)
    (manifest_eval : Nat → ManifestFile → Bool) : List ManifestFile :=
  match scan.snapshot with
  | none => []
  | some snapshot =>
      snapshot.manifests.filter (fun m => manifest_eval m.partition_spec_id m)

/-- The manifest entries reaching the content loop of `plan_files`:
surviving manifests are filtered by the sequence-number discipline and
opened; entries pass the per-spec partition evaluator and the inclusive
metrics evaluator.  Order follows the manifest order (the executor's
`map` preserves order, so concurrency affects only throughput). -/
def survivingEntries (scan : TableScan)
    (manifest_eval : Nat → ManifestFile → Bool)
    (partition_eval : Nat → DataFile → Bool)
    (metrics_eval : DataFile → Bool) : List ManifestEntry :=
  let manifests := survivingManifests scan manifest_eval
  let min_data_sequence_number := minDataFileSequenceNumber manifests
  ((manifests.filter (checkSequenceNumber min_data_sequence_number)).map
    (fun m => openManifest m (partition_eval m.partition_spec_id) metrics_eval)).flatten

/-- `DataScan.plan_files`: resolve the snapshot (no snapshot: no tasks),
prune manifests, apply the sequence-number discipline, filter entries,
split them by content, sort the positional deletes by sequence number
and emit one FileScanTask per data entry with its matched deletes. -/
def planFiles (scan : TableScan)
    (manifest_eval : Nat → ManifestFile → Bool)
    (partition_eval : Nat → DataFile → Bool)
    (metrics_eval : DataFile → Bool) : Except PyError (List FileScanTask) :=
  match scan.snapshot with
  | none => .ok []
  | some _ =>
    match partitionEntries (survivingEntries scan manifest_eval partition_eval metrics_eval) with
    | .error e => .error e
    | .ok r =>
      let positional_delete_entries := List.insertionSort entryLE r.2
      .ok (r.1.map (fun data_entry =>
        FileScanTask.mk data_entry.data_file
          (matchDeletesToDatafile data_entry positional_delete_entries)
          0 data_entry.data_file.file_size_in_bytes))

/-- The closed set of update records (spec 4.G); payloads are carried
where the verified code constructs them. -/
inductive TableUpdate where
  | upgradeFormatVersion (format_version : Nat)
  | addSchema (schema : Schema) (last_column_id : Nat)
  | setCurrentSchema (schema_id : Int)
  | setLocation (location : String)
  | setProperties (updates : List (String × String))
  | removeProperties (removals : List String)

/-- The Python runtime type of an update (`type(update)`), used by the
uniqueness check of `_append_updates`. -/
inductive UpdateKind where
  | upgradeFormatVersion
  | addSchema
  | setCurrentSchema
  | setLocation
  | setProperties
  | removeProperties
deriving DecidableEq, Repr

def TableUpdate.kind : TableUpdate → UpdateKind
  | .upgradeFormatVersion _ => .upgradeFormatVersion
  | .addSchema _ _ => .addSchema
  | .setCurrentSchema _ => .setCurrentSchema
  | .setLocation _ => .setLocation
  | .setProperties _ => .setProperties
  | .removeProperties _ => .removeProperties

/-- The closed set of requirement records (spec 4.G). -/
inductive TableRequirement where
  | assertCreate
  | assertTableUUID (uuid : String)
  | assertRefSnapshotId (ref : String) (snapshot_id : Option Nat)
  | assertLastAssignedFieldId (last_assigned_field_id : Nat)
  | assertCurrentSchemaId (current_schema_id : Nat)
  | assertDefaultSpecId (default_spec_id : Nat)

/-- The Python runtime type of a requirement (`type(requirement)`). -/
inductive RequirementKind where
  | assertCreate
  | assertTableUUID
  | assertRefSnapshotId
  | assertLastAssignedFieldId
  | assertCurrentSchemaId
  | assertDefaultSpecId
deriving DecidableEq, Repr

def TableRequirement.kind : TableRequirement → RequirementKind
  | .assertCreate => .assertCreate
  | .assertTableUUID _ => .assertTableUUID
  | .assertRefSnapshotId _ _ => .assertRefSnapshotId
  | .assertLastAssignedFieldId _ => .assertLastAssignedFieldId
  | .assertCurrentSchemaId _ => .assertCurrentSchemaId
  | .assertDefaultSpecId _ => .assertDefaultSpecId

/-- CommitTableRequest: identifier without the catalog prefix,
requirements and updates. -/
structure CommitTableRequest where
  identifier : List String
  requirements : List TableRequirement
  updates : List TableUpdate

/-- CommitTableResponse: the new metadata and its location. -/
structure CommitTableResponse where
  metadata : TableMetadata
  metadata_location : String

/-- Transaction state: the table and the staged updates/requirements. -/
structure Transaction where
  _table : Table
  _updates : List TableUpdate
  _requirements : List TableRequirement

/-- `Transaction._append_updates`: each new update is checked against the
staged ones (`if any(type(update) == type_new_update for update in
self._updates): raise ValueError`); on success all new updates are
appended.  New updates are not checked against each other, exactly as in
the source. -/
def Transaction.appendUpdates (t : Transaction) (new_updates : List TableUpdate) :
    Except PyError Transaction :=
  if new_updates.any (fun nu => t._updates.any (fun u => u.kind == nu.kind)) then
    .error .valueError
  else
    .ok { t with _updates := t._updates ++ new_updates }

/-- `Transaction._append_requirements`: the source's generator is
`any(type(requirement) == type_new_requirement for update in
self._requirements)` — both sides name the NEW requirement (the loop
variable `requirement`), while `update` ranges over the staged list
unused; the test is therefore `type(new) == type(new)`, true once per
staged element.  The call raises whenever any requirement is already
staged, regardless of kinds. -/
def Transaction.appendRequirements (t : Transaction)
    (new_requirements : List TableRequirement) : Except PyError Transaction :=
  if new_requirements.any (fun r => t._requirements.any (fun _update => r.kind == r.kind)) then
    .error .valueError
  else
    .ok { t with _requirements := t._requirements ++ new_requirements }

/-- `Transaction.commit_transaction`: with at least one staged update,
build the request (identifier stripped of the catalog name), call the
catalog (`Table._do_commit`) and install the response's metadata and
location; with no staged update return the table untouched.  The catalog
client is the parameter `commitFn`; the second component records the
request sent, `none` meaning the catalog was never invoked. -/
def Transaction.commit_transaction (t : Transaction)
    (commitFn : CommitTableRequest → CommitTableResponse) :
    Table × Option CommitTableRequest :=
  if t._updates.length > 0 then
    let request := CommitTableRequest.mk (t._table.identifier.drop 1)
      t._requirements t._updates
    let response := commitFn request
    ({ t._table with
        metadata := response.metadata,
        metadata_location := response.metadata_location },
      some request)
  else
    (t._table, none)

/-- Lookup in a Python dict keyed by int field ids. -/
def natDictLookup {α : Type} (m : List (Nat × α)) (k : Nat) : Option α :=
  (m.find? (fun kv => kv.fst == k)).map (fun kv => kv.snd)

/-- Assignment into a Python dict keyed by int field ids. -/
def natDictSet {α : Type} (m : List (Nat × α)) (k : Nat) (v : α) : List (Nat × α) :=
  if (m.find? (fun kv => kv.fst == k)).isSome then
    m.map (fun kv => if kv.fst == k then (k, v) else kv)
  else m ++ [(k, v)]

/-- Lookup in a Python dict keyed by parent ids (which include
TABLE_ROOT_ID = -1, hence Int keys). -/
def intDictLookup {α : Type} (m : List (Int × α)) (k : Int) : Option α :=
  (m.find? (fun kv => kv.fst == k)).map (fun kv => kv.snd)

/-- Assignment into a Python dict keyed by parent ids. -/
def intDictSet {α : Type} (m : List (Int × α)) (k : Int) (v : α) : List (Int × α) :=
  if (m.find? (fun kv => kv.fst == k)).isSome then
    m.map (fun kv => if kv.fst == k then (k, v) else kv)
  else m ++ [(k, v)]

/-- MoveOperation of the schema-evolution builder. -/
inductive MoveOperation where
  | first
  | before
  | after
deriving DecidableEq, Repr

/-- A staged move. -/
structure Move where
  field_id : Nat
  op : MoveOperation
  other_field_id : Option Nat
deriving DecidableEq, Repr

/-- A column path argument (`Union[str, Tuple[str, ...]]`).  The builder
normalises a string `s` to the one-element tuple `(s,)` and joins tuples
with dots before resolving them; `rename_column` additionally tests the
RAW argument for membership in `_identifier_field_names` (a tuple never
matches a list of strings). -/
inductive ColumnPath where
  | str (s : String)
  | tup (parts : List String)
deriving DecidableEq, Repr

/-- The components of the path after the `(path,) if isinstance(path, str)
else path` normalisation.  All concrete names in this development are
dot-free, for which joining the components and re-resolving the dotted
name coincides with descending the components. -/
def ColumnPath.parts : ColumnPath → List String
  | .str s => [s]
  | .tup p => p

/-- `".".join(path)`. -/
def ColumnPath.fullName (p : ColumnPath) : String :=
  String.intercalate "." p.parts

/-- Python's `"." in name`, via the character list so that concrete
instances evaluate. -/
def pyStrContainsDot (s : String) : Bool :=
  s.data.contains '.'

/-- The staged state of UpdateSchema.  `_last_column_id` is the value the
`itertools.count(schema.highest_field_id + 1)` counter will yield next;
`_identifier_field_names` is initialised from `schema.column_names`
exactly as in `__init__`.  The `_id_to_parent` index backing the move
operations is omitted: no verified claim stages a move, though the
`_moves` map and the move machinery of the apply visitor are modelled. -/
structure UpdateSchema where
  _schema : Schema
  _last_column_id : Nat
  _identifier_field_names : List String
  _adds : List (Int × List NestedField)
  _updates : List (Nat × NestedField)
  _deletes : List Nat
  _moves : List (Int × List Move)
  _added_name_to_id : List (String × Nat)
  _allow_incompatible_changes : Bool
  _case_sensitive : Bool

/-- `UpdateSchema.__init__`. -/
def UpdateSchema.new (schema : Schema) (allow_incompatible_changes : Bool)
    (case_sensitive : Bool) : UpdateSchema :=
  { _schema := schema,
    _last_column_id := schema.highest_field_id + 1,
    _identifier_field_names := schema.column_names,
    _adds := [],
    _updates := [],
    _deletes := [],
    _moves := [],
    _added_name_to_id := [],
    _allow_incompatible_changes := allow_incompatible_changes,
    _case_sensitive := case_sensitive }

/-- `UpdateSchema.add_column`: reject dotted leaf names; a required add
without `allow_incompatible_changes` is Incompatible; the parent must
exist and be a struct (a map parent means its value field, a list parent
its element field); an existing full name is a Duplicate; the new field
gets the next id and its nested type fresh ids throughout. -/
def UpdateSchema.add_column (us : UpdateSchema) (path : ColumnPath)
    (field_type : IcebergType) (doc : Option String) (required : Bool) :
    Except PyError UpdateSchema :=
  match path.parts with
  | [] => .error .valueError
  | parts@(_ :: _) =>
    let name := parts.getLastD ""
    if pyStrContainsDot name then .error .valueError
    else if required && !us._allow_incompatible_changes then .error .valueError
    else
      let parent := parts.dropLast
      let full_name := String.intercalate "." parts
      let parent_id : Except PyError Int :=
        if parent.isEmpty then .ok TABLE_ROOT_ID
        else
          match us._schema.find_field parent us._case_sensitive with
          | none => .error .valueError
          | some parent_field0 =>
            let parent_field :=
              match parent_field0.field_type with
              | .mapType _ _ vid vt vreq => NestedField.mk vid "value" vt vreq none
              | .listType eid et ereq => NestedField.mk eid "element" et ereq none
              | _ => parent_field0
            if !parent_field.field_type.is_struct then .error .valueError
            else .ok (Int.ofNat parent_field.field_id)
      match parent_id with
      | .error e => .error e
      | .ok pid =>
        if (us._schema.find_field parts us._case_sensitive).isSome then
          .error .valueError
        else
          let new_id := us._last_column_id
          let r := assignFreshType field_type (us._last_column_id + 1)
          let field := NestedField.mk new_id name r.1 required doc
          .ok { us with
            _last_column_id := r.2,
            _added_name_to_id := us._added_name_to_id ++ [(full_name, new_id)],
            _adds := intDictSet us._adds pid
              ((intDictLookup us._adds pid).getD [] ++ [field]) }

/-- `UpdateSchema.delete_column`: fails on a missing column, on a column
with staged child additions and on one with staged updates; otherwise
marks the id deleted. -/
def UpdateSchema.delete_column (us : UpdateSchema) (path : ColumnPath) :
    Except PyError UpdateSchema :=
  match us._schema.find_field path.parts us._case_sensitive with
  | none => .error .valueError
  | some field =>
    if (intDictLookup us._adds (Int.ofNat field.field_id)).isSome then .error .valueError
    else if (natDictLookup us._updates field.field_id).isSome then .error .valueError
    else .ok { us with _deletes :=
      if us._deletes.contains field.field_id then us._deletes
      else us._deletes ++ [field.field_id] }

/-- `UpdateSchema.rename_column`: fails on a missing or to-be-deleted
column; stages (or augments) an update carrying the new name; when the
raw `path_from` argument is a string occurring in
`_identifier_field_names`, the old full name is removed from that list
and the new one appended. -/
def UpdateSchema.rename_column (us : UpdateSchema) (path_from path_to : ColumnPath) :
    Except PyError UpdateSchema :=
  let full_name_from := path_from.fullName
  let full_name_to := path_to.fullName
  match us._schema.find_field path_from.parts us._case_sensitive with
  | none => .error .valueError
  | some from_field =>
    if us._deletes.contains from_field.field_id then .error .valueError
    else
      let staged :=
        match natDictLookup us._updates from_field.field_id with
        | some updated =>
            NestedField.mk updated.field_id full_name_to updated.field_type
              updated.required updated.doc
        | none =>
            NestedField.mk from_field.field_id full_name_to from_field.field_type
              from_field.required from_field.doc
      let names :=
        match path_from with
        | .str s =>
            if us._identifier_field_names.contains s then
              us._identifier_field_names.erase full_name_from ++ [full_name_to]
            else us._identifier_field_names
        | .tup _ => us._identifier_field_names
      .ok { us with
        _updates := natDictSet us._updates from_field.field_id staged,
        _identifier_field_names := names }

/-- `UpdateSchema._set_column_requirement`.  Transcribed exactly as
written in the source, including its guard
`if self._allow_incompatible_changes and not required: raise ...
"optional -> required"`: the raise fires on required-to-optional changes
when the flag IS set, and an optional-to-required change never raises.
The lookup uses the source's `self._schema.find_field(name)` call, which
passes no case flag (always case-sensitive). -/
def UpdateSchema.set_column_requirement (us : UpdateSchema) (path : ColumnPath)
    (required : Bool) : Except PyError UpdateSchema :=
  match us._schema.find_field path.parts true with
  | none => .error .valueError
  | some field =>
    if (field.required && required) || (field.optional && !required) then .ok us
    else if us._allow_incompatible_changes && !required then .error .valueError
    else if us._deletes.contains field.field_id then .error .valueError
    else
      let staged :=
        match natDictLookup us._updates field.field_id with
        | some updated =>
            NestedField.mk updated.field_id updated.name updated.field_type
              required updated.doc
        | none =>
            NestedField.mk field.field_id field.name field.field_type
              required field.doc
      .ok { us with _updates := natDictSet us._updates field.field_id staged }

/-- `UpdateSchema.require_column`. -/
def UpdateSchema.require_column (us : UpdateSchema) (path : ColumnPath) :
    Except PyError UpdateSchema :=
  us.set_column_requirement path true

/-- `UpdateSchema.make_column_optional`. -/
def UpdateSchema.make_column_optional (us : UpdateSchema) (path : ColumnPath) :
    Except PyError UpdateSchema :=
  us.set_column_requirement path false

/-- `UpdateSchema.update_column`: fails on a missing column and on a
to-be-deleted one; a type equal to the current one is a no-op; otherwise
the replacement type is staged unconditionally — the source performs no
promotion check and never consults `_allow_incompatible_changes` here.
The lookup is the source's flag-less `find_field(full_name)`. -/
def UpdateSchema.update_column (us : UpdateSchema) (path : ColumnPath)
    (field_type : IcebergType) : Except PyError UpdateSchema :=
  match us._schema.find_field path.parts true with
  | none => .error .valueError
  | some field =>
    if us._deletes.contains field.field_id then .error .valueError
    else if field.field_type == field_type then .ok us
    else
      let staged :=
        match natDictLookup us._updates field.field_id with
        | some updated =>
            NestedField.mk updated.field_id updated.name field_type
              updated.required updated.doc
        | none =>
            NestedField.mk field.field_id field.name field_type
              field.required field.doc
      .ok { us with _updates := natDictSet us._updates field.field_id staged }

/-- `_add_fields`: the source computes `None if len(adds) == 0 else
tuple(*fields, *adds)`.  With non-empty adds, `tuple(*fields, *adds)`
passes every field and every add as its own positional argument to
`tuple`, which accepts at most one argument: with two or more arguments
this raises TypeError immediately; with exactly one (no existing fields,
one add) `tuple(model)` iterates the pydantic model into name/value
pairs, which then fail the StructType field validation of the caller.
Either way non-empty adds abort the apply; modelled as `typeError`. -/
def addFields (fields : List NestedField) (adds : Option (List NestedField)) :
    Except PyError (Option (List NestedField)) :=
  let adds := adds.getD []
  let _ := fields
  if adds.length = 0 then .ok none
  else .error .typeError

/-- `_move_fields`: replay the staged moves over the field tuple; the
`next(...)` searches raise StopIteration when the moved field or the
anchor is absent. -/
def moveFields (fields : List NestedField) (moves : List Move) :
    Except PyError (List NestedField) :=
  match moves with
  | [] => .ok fields
  | move :: rest =>
    match fields.find? (fun f => f.field_id == move.field_id) with
    | none => .error .stopIteration
    | some field =>
      let reordered := fields.filter (fun f => f.field_id != move.field_id)
      let placed : Except PyError (List NestedField) :=
        match move.op with
        | .first => .ok (field :: reordered)
        | .before =>
          match move.other_field_id with
          | none => .error .stopIteration
          | some oid =>
            match reordered.findIdx? (fun f => f.field_id == oid) with
            | none => .error .stopIteration
            | some pos => .ok (reordered.insertIdx pos field)
        | .after =>
          match move.other_field_id with
          | none => .error .stopIteration
          | some oid =>
            match reordered.findIdx? (fun f => f.field_id == oid) with
            | none => .error .stopIteration
            | some pos => .ok (reordered.insertIdx (pos + 1) field)
      match placed with
      | .error e => .error e
      | .ok l => moveFields l rest

/-- `_add_and_move_fields`: adds are applied first (so added fields can
be moved), then moves; with neither the result is None. -/
def addAndMoveFields (fields : List NestedField) (adds : List NestedField)
    (moves : List Move) : Except PyError (Option (List NestedField)) :=
  if adds.length > 0 then
    match addFields fields (some adds) with
    | .error e => .error e
    | .ok (some added) =>
      if moves.length > 0 then (moveFields added moves).map some
      else .ok (some added)
    | .ok none => .ok none
  else if moves.length > 0 then (moveFields fields moves).map some
  else .ok none

/-- The staged-change record consumed by the `_ApplyChanges` visitor. -/
structure ApplyChanges where
  _adds : List (Int × List NestedField)
  _updates : List (Nat × NestedField)
  _deletes : List Nat
  _moves : List (Int × List Move)

/-- `_ApplyChanges.field`: a deleted id yields None; a staged update with
a differing type replaces the type; staged child adds or moves require a
struct type and rebuild its fields; otherwise the recursed result is
passed through. -/
def acField (ac : ApplyChanges) (field : NestedField)
    (field_result : Option IcebergType) : Except PyError (Option IcebergType) :=
  if ac._deletes.contains field.field_id then .ok none
  else
    let updated_type : Option IcebergType :=
      match natDictLookup ac._updates field.field_id with
      | some update =>
          if !(field.field_type == update.field_type) then some update.field_type
          else none
      | none => none
    match updated_type with
    | some t => .ok (some t)
    | none =>
      let added := intDictLookup ac._adds (Int.ofNat field.field_id)
      let mvs := intDictLookup ac._moves (Int.ofNat field.field_id)
      if added.isSome || mvs.isSome then
        match field.field_type with
        | .structType fs =>
          match addAndMoveFields fs (added.getD []) (mvs.getD []) with
          | .error e => .error e
          | .ok (some new_fields) => .ok (some (.structType new_fields))
          | .ok none => .ok field_result
        | _ => .error .valueError
      else .ok field_result

/-- The per-field loop of `_ApplyChanges.struct`, right fold over the
zipped fields and results; first component: `has_changes`.  The source's
`update := self._updates.get(field)` looks a NestedField object up in a
dict keyed by int field ids, so it never hits: the name/doc/required
locals always keep the field's own values (staged renames and
requirement changes are silently dropped here), and the rebuilt field
reuses `field.name`, `field.required` and `field.doc` verbatim. -/
def acStructGo (ac : ApplyChanges) :
    List (NestedField × Option IcebergType) → Bool × List NestedField
  | [] => (false, [])
  | (field, result_type) :: rest =>
    let r := acStructGo ac rest
    match result_type with
    | none => (true, r.2)
    | some rt =>
      let update : Option NestedField := none
      let name := match update with | some u => u.name | none => field.name
      let doc := match update with | some u => u.doc | none => field.doc
      let required := match update with | some u => u.required | none => field.required
      if field.name == name && field.field_type == rt &&
          field.required == required && field.doc == doc then
        (r.1, field :: r.2)
      else
        (true, NestedField.mk field.field_id field.name rt field.required field.doc :: r.2)

/-- `_ApplyChanges.struct`: rebuild the struct when anything changed,
else return the original. -/
def acStruct (ac : ApplyChanges) (struct_fields : List NestedField)
    (field_results : List (Option IcebergType)) : IcebergType :=
  let r := acStructGo ac (struct_fields.zip field_results)
  if r.1 then .structType r.2 else .structType struct_fields

/-- `_ApplyChanges.schema`: append the root adds (TABLE_ROOT_ID) to the
struct result's fields; with no root adds, pass the struct result
through. -/
def acSchema (ac : ApplyChanges) (struct_result : Option IcebergType) :
    Except PyError (Option IcebergType) :=
  match addFields
      (match struct_result with | some t => t.fieldsOf | none => [])
      (intDictLookup ac._adds TABLE_ROOT_ID) with
  | .error e => .error e
  | .ok (some new_fields) => .ok (some (.structType new_fields))
  | .ok none => .ok struct_result

mutual
/-- Modelled from the spec: the bottom-up schema traversal of
`pyiceberg.schema.visit` (not in src/), instantiated at `_ApplyChanges`:
a struct visits each field's type and wraps it with the `field` method
before combining with `struct`; a list visits its element type and the
`list` method wraps the element field itself (deleting the element type
is illegal); a map visits key and value types, rejects adds under the
key id and wraps the value field (deleting the value type is illegal);
primitives are returned as is. -/
def acVisitType (ac : ApplyChanges) : IcebergType → Except PyError (Option IcebergType)
  | .structType fs => do
      let results ← acVisitFields ac fs
      pure (some (acStruct ac fs results))
  | .listType eid et ereq => do
      let element_result ← acVisitType ac et
      let element_type ← acField ac (NestedField.mk eid "element" et ereq none) element_result
      match element_type with
      | none => Except.error .valueError
      | some t => pure (some (.listType eid t ereq))
  | .mapType kid kt vid vt vreq => do
      let _key_result ← acVisitType ac kt
      let value_result ← acVisitType ac vt
      if (intDictLookup ac._adds (Int.ofNat kid)).isSome then Except.error .valueError
      else
        let value_type ← acField ac (NestedField.mk vid "value" vt vreq none) value_result
        match value_type with
        | none => Except.error .valueError
        | some t => pure (some (.mapType kid kt vid t vreq))
  | .booleanType => pure (some .booleanType)
  | .integerType => pure (some .integerType)
  | .longType => pure (some .longType)
  | .floatType => pure (some .floatType)
  | .doubleType => pure (some .doubleType)
  | .decimalType p s => pure (some (.decimalType p s))
  | .dateType => pure (some .dateType)
  | .stringType => pure (some .stringType)
  | .binaryType => pure (some .binaryType)

/-- Modelled from the spec: the traversal over a struct's field list. -/
def acVisitFields (ac : ApplyChanges) :
    List NestedField → Except PyError (List (Option IcebergType))
  | [] => pure []
  | .mk i n t r d :: fs => do
      let type_result ← acVisitType ac t
      let field_result ← acField ac (.mk i n t r d) type_result
      let rest ← acVisitFields ac fs
      pure (field_result :: rest)
end

/-- `UpdateSchema._apply`: run the visitor over the current schema; a
None result is "Could not apply changes"; the surviving struct's fields
become a fresh schema (`Schema(*struct.fields)`, schema id 0), in which
every staged identifier field name must still resolve (`find_field(name)`
succeeds exactly when the dotted name occurs in the schema's name index,
modelled by column-name membership). -/
def UpdateSchema.apply_changes (us : UpdateSchema) : Except PyError Schema := do
  let ac : ApplyChanges := ⟨us._adds, us._updates, us._deletes, us._moves⟩
  let struct_result ← acVisitType ac (.structType us._schema.fields)
  let struct ← acSchema ac struct_result
  match struct with
  | none => Except.error .valueError
  | some t =>
    let schema : Schema := ⟨t.fieldsOf, 0⟩
    if us._identifier_field_names.all (fun n => schema.column_names.contains n) then
      pure schema
    else Except.error .valueError

/-- `UpdateSchema.commit`: apply the staged changes and emit the commit
payload `[AddSchemaUpdate(new_schema, new_schema.highest_field_id),
SetCurrentSchemaUpdate(-1)]` and `[AssertCurrentSchemaId(pre-change
schema id)]`.  Inside a transaction the source hands exactly this pair
to `_append_updates` / `_append_requirements`, otherwise to
`_do_commit`; the payload is returned. -/
def UpdateSchema.commit (us : UpdateSchema) :
    Except PyError (List TableUpdate × List TableRequirement) := do
  let new_schema ← us.apply_changes
  pure ([TableUpdate.addSchema new_schema new_schema.highest_field_id,
         TableUpdate.setCurrentSchema (-1)],
        [TableRequirement.assertCurrentSchemaId us._schema.schema_id])

/-- Spec-side definition (for comparison with the code): `S* =
min(min_sequence_number | content = DATA)` across the given manifests,
INITIAL_SEQUENCE_NUMBER when that set is empty or a min_sequence_number
is missing. -/
def specMinDataSequenceNumber (manifests : List ManifestFile) : Nat :=
  let vals := (manifests.filter (fun m => m.content == ManifestContent.data)).map
    (fun m => m.min_sequence_number.getD INITIAL_SEQUENCE_NUMBER)
  match vals with
  | [] => INITIAL_SEQUENCE_NUMBER
  | v :: vs => vs.foldl min v

/-- Spec-side definition: retain a manifest iff `content = DATA` or
(`content = DELETES` and `sequence_number ≥ S*`), a missing
sequence_number defaulting to INITIAL_SEQUENCE_NUMBER. -/
def specRetainManifest (s_star : Nat) (m : ManifestFile) : Bool :=
  m.content == ManifestContent.data ||
    (m.content == ManifestContent.deletes &&
      m.sequence_number.getD INITIAL_SEQUENCE_NUMBER ≥ s_star)

/-- Spec-side definition: the safe type promotions of the claim:
int → long, float → double, and decimal(p, s) → decimal(p', s) with
p' ≥ p. -/
def isSafePromotion : IcebergType → IcebergType → Bool
  | .integerType, .longType => true
  | .floatType, .doubleType => true
  | .decimalType p s, .decimalType p' s' => s' == s && p ≤ p'
  | _, _ => false

theorem pyOrNat_zero (x : Option Nat) : pyOrNat x 0 = x.getD 0 := by
  cases x with
  | none => rfl
  | some n =>
    simp only [pyOrNat, Option.getD_some]
    split <;> omega

/-- C2: on every manifest list surviving manifest pruning the planner's
minimal data sequence number `_min_data_file_sequence_number` equals the
spec's `S*` (INITIAL_SEQUENCE_NUMBER on an empty or bound-less data
set), `_check_sequence_number` retains exactly the manifests the spec
retains (DATA, or DELETES with sequence number at least `S*`), and the
manifests reaching entry filtering are exactly the retained ones. -/
theorem c2_sequence_number_discipline (ms : List ManifestFile) (s : Nat)
    (m : ManifestFile) :
    minDataFileSequenceNumber ms = specMinDataSequenceNumber ms ∧
    checkSequenceNumber s m = specRetainManifest s m ∧
    (m ∈ ms.filter (checkSequenceNumber (minDataFileSequenceNumber ms)) ↔
      m ∈ ms ∧ specRetainManifest (specMinDataSequenceNumber ms) m = true) := by
  have hmin : minDataFileSequenceNumber ms = specMinDataSequenceNumber ms := by
    simp only [minDataFileSequenceNumber, specMinDataSequenceNumber,
      INITIAL_SEQUENCE_NUMBER, pyOrNat_zero]
  have hchk : ∀ s' m', checkSequenceNumber s' m' = specRetainManifest s' m' := by
    intro s' m'
    simp only [checkSequenceNumber, specRetainManifest,
      INITIAL_SEQUENCE_NUMBER, pyOrNat_zero]
  refine ⟨hmin, hchk s m, ?_⟩
  rw [List.mem_filter, hchk, hmin]

/-- Fixture for C3: a schema holding a single long column `id`. -/
def c3Schema : Schema := ⟨[NestedField.mk 1 "id" IcebergType.longType false none], 5⟩

/-- Fixture for C3: a builder over `c3Schema` without
`allow_incompatible_changes`. -/
def c3Builder : UpdateSchema := UpdateSchema.new c3Schema false true

/-- C3, counterexample: `update_column("id", int)` on a `long` column —
not a safe promotion, `allow_incompatible_changes` unset — SUCCEEDS and
stages the demotion, where the claim requires failure with Incompatible:
the source performs no promotion validation. -/
theorem c3_counterexample_demotion_accepted :
    c3Builder.update_column (ColumnPath.str "id") IcebergType.integerType =
      .ok { c3Builder with
        _updates := [(1, NestedField.mk 1 "id" IcebergType.integerType false none)] } ∧
    isSafePromotion IcebergType.longType IcebergType.integerType = false ∧
    c3Builder._allow_incompatible_changes = false :=
  ⟨rfl, rfl, rfl⟩

/-- C3 as amended: for a resolvable column not staged for deletion,
`update_column(p, T)` is a no-op when `T` equals the current type and
otherwise stages the replacement type unconditionally — no safe-promotion
check and no consultation of `allow_incompatible_changes` takes place
(the hypotheses and conclusion are independent of the flag). -/
theorem c3_update_column_stages_any_type (us : UpdateSchema) (path : ColumnPath)
    (field_type : IcebergType) (field : NestedField)
    (hfind : us._schema.find_field path.parts true = some field)
    (hdel : us._deletes.contains field.field_id = false) :
    ((field.field_type == field_type) = true →
      us.update_column path field_type = .ok us) ∧
    ((field.field_type == field_type) = false →
      us.update_column path field_type = .ok { us with
        _updates := natDictSet us._updates field.field_id
          (match natDictLookup us._updates field.field_id with
           | some updated => NestedField.mk updated.field_id updated.name field_type
               updated.required updated.doc
           | none => NestedField.mk field.field_id field.name field_type
               field.required field.doc) }) := by
  have hdel' : field.field_id ∉ us._deletes := by simpa using hdel
  constructor <;> intro h <;> simp [UpdateSchema.update_column, hfind, hdel', h]

/-- C3, witness: the amended theorem applied to the concrete builder:
retyping the long column `id` to double (not a safe promotion) stages
the change. -/
theorem c3_update_column_witness :
    c3Builder.update_column (ColumnPath.str "id") IcebergType.doubleType =
      .ok { c3Builder with
        _updates := [(1, NestedField.mk 1 "id" IcebergType.doubleType false none)] } := by
  have h := (c3_update_column_stages_any_type c3Builder (ColumnPath.str "id")
      IcebergType.doubleType (NestedField.mk 1 "id" IcebergType.longType false none)
      rfl rfl).2 rfl
  exact h

/-- Fixture for C4: the schema `{1: id: int, 2: data: string}`. -/
def c4Schema : Schema :=
  ⟨[NestedField.mk 1 "id" IcebergType.integerType false none,
    NestedField.mk 2 "data" IcebergType.stringType false none], 7⟩

/-- Fixture for C4: a builder over `c4Schema`. -/
def c4Builder : UpdateSchema := UpdateSchema.new c4Schema false true

/-- C4: staging `rename_column("data", "payload")` and
`add_column("extra", long)` and committing does NOT produce the claimed
schema `{1: id, 2: payload, 3: extra}` with its AddSchema /
SetCurrentSchema / AssertCurrentSchemaId payload: the apply visitor
crashes with a TypeError, because `_add_fields` evaluates
`tuple(*fields, *adds)` — `tuple` called with three positional
arguments.  (Independently, `_ApplyChanges.struct` looks staged updates
up by the field object in a dict keyed by int ids, so the rename would
be dropped even without the crash.) -/
theorem c4_rename_add_commit_crashes :
    (do
      let u1 ← c4Builder.rename_column (ColumnPath.str "data") (ColumnPath.str "payload")
      let u2 ← u1.add_column (ColumnPath.str "extra") IcebergType.longType none false
      u2.commit) = Except.error PyError.typeError := rfl

/-- Fixture for C5: a table handle for the transaction. -/
def c5Table : Table := ⟨["prod_catalog", "db", "tbl"], ⟨[], [], none⟩, "s3://m.json"⟩

/-- Fixture for C5: a transaction with one staged requirement
(AssertCreate) and no staged updates. -/
def c5Transaction : Transaction := ⟨c5Table, [], [TableRequirement.assertCreate]⟩

/-- C5: `_append_requirements` rejects a new requirement of a DIFFERENT
kind (AssertTableUUID vs the staged AssertCreate) with ValueError,
because its uniqueness test compares the new requirement's type with
itself once per staged element; `_append_updates` (third conjunct)
performs the per-kind check the claim describes. -/
theorem c5_requirement_append_rejects_distinct_kind :
    c5Transaction.appendRequirements [TableRequirement.assertTableUUID "u-1"] =
      .error .valueError ∧
    (TableRequirement.assertTableUUID "u-1").kind ≠ TableRequirement.assertCreate.kind ∧
    c5Transaction.appendUpdates [TableUpdate.setLocation "s3://x"] =
      .ok { c5Transaction with _updates := [TableUpdate.setLocation "s3://x"] } :=
  ⟨rfl, by decide, rfl⟩

/-- Fixture for C6: schema with an optional int column `id`. -/
def c6OptionalSchema : Schema := ⟨[NestedField.mk 1 "id" IcebergType.integerType false none], 0⟩

/-- Fixture for C6: builder over the optional column, flag unset. -/
def c6BuilderNoFlag : UpdateSchema := UpdateSchema.new c6OptionalSchema false true

/-- Fixture for C6: schema with a required int column `id`. -/
def c6RequiredSchema : Schema := ⟨[NestedField.mk 1 "id" IcebergType.integerType true none], 0⟩

/-- Fixture for C6: builder over the required column, flag set. -/
def c6BuilderWithFlag : UpdateSchema := UpdateSchema.new c6RequiredSchema true true

/-- C6: the nullability guard is inverted in the source
(`if self._allow_incompatible_changes and not required: raise`):
(1) `require_column` on an optional column WITHOUT
`allow_incompatible_changes` succeeds and stages `required = true`,
where the claim requires Incompatible; (2) `make_column_optional` on a
required column WITH the flag set raises; (3) `require_column` on an
already-required column stays a no-op; (4) `add_column` with
`required = true` and no flag does fail as the claim states. -/
theorem c6_nullability_guard_inverted :
    c6BuilderNoFlag.require_column (ColumnPath.str "id") =
      .ok { c6BuilderNoFlag with
        _updates := [(1, NestedField.mk 1 "id" IcebergType.integerType true none)] } ∧
    c6BuilderWithFlag.make_column_optional (ColumnPath.str "id") = .error .valueError ∧
    c6BuilderWithFlag.require_column (ColumnPath.str "id") = .ok c6BuilderWithFlag ∧
    c6BuilderNoFlag.add_column (ColumnPath.str "extra") IcebergType.longType none true =
      .error .valueError :=
  ⟨rfl, rfl, rfl, rfl⟩

/-- Fixture for C7: snapshot 42 (branch main). -/
def c7Snapshot42 : Snapshot := ⟨42, none, []⟩

/-- Fixture for C7: snapshot 17 (branch stage). -/
def c7Snapshot17 : Snapshot := ⟨17, none, []⟩

/-- Fixture for C7: a table with branches `main → 42` and `stage → 17`,
current snapshot 42. -/
def c7Table : Table :=
  ⟨["cat", "db", "t"],
   ⟨[c7Snapshot42, c7Snapshot17], [("main", ⟨42⟩), ("stage", ⟨17⟩)], some 42⟩,
   "s3://meta.json"⟩

/-- Fixture for C7: a fresh scan of `c7Table` (no snapshot id). -/
def c7BaseScan : TableScan := ⟨c7Table, .alwaysTrue, ["*"], true, none, [], none⟩

/-- Fixture for C7: the same scan with `snapshot_id = 0`. -/
def c7ScanZero : TableScan := { c7BaseScan with snapshot_id := some 0 }

/-- C7, counterexample: a scan whose snapshot_id IS set (to 0) does not
make `use_ref` fail — `if self.snapshot_id:` treats 0 as unset, and the
call resolves the ref and succeeds, contrary to the claim's "use_ref
fails when the scan already has a snapshot_id set". -/
theorem c7_counterexample_zero_snapshot_id :
    c7ScanZero.snapshot_id = some 0 ∧
    c7ScanZero.use_ref "stage" = .ok { c7ScanZero with snapshot_id := some 17 } :=
  ⟨rfl, rfl⟩

/-- C7 as amended: with "set" read as Python truthiness (a nonzero
snapshot id): `use_ref` fails when a nonzero snapshot id is already set;
otherwise it resolves the ref name to its snapshot, and the resulting
scan resolves to exactly that snapshot provided its id is nonzero;
`use_ref` fails when the name resolves to no snapshot; and a scan
without a truthy snapshot id resolves to the table's current snapshot. -/
theorem c7_use_ref_resolution (s : TableScan) (name : String) :
    (pyTruthyNat s.snapshot_id = true → (s.use_ref name).isOk = false) ∧
    (∀ snap : Snapshot, pyTruthyNat s.snapshot_id = false →
      s.table.snapshot_by_name name = some snap →
      s.use_ref name = .ok { s with snapshot_id := some snap.snapshot_id } ∧
      (snap.snapshot_id ≠ 0 →
        ({ s with snapshot_id := some snap.snapshot_id } : TableScan).snapshot = some snap)) ∧
    (pyTruthyNat s.snapshot_id = false → s.table.snapshot_by_name name = none →
      (s.use_ref name).isOk = false) ∧
    (pyTruthyNat s.snapshot_id = false → s.snapshot = s.table.current_snapshot) := by
  refine ⟨?_, ?_, ?_, ?_⟩
  · intro h
    simp [TableScan.use_ref, h, Except.isOk, Except.toBool]
  · intro snap h hname
    refine ⟨by simp [TableScan.use_ref, h, hname], ?_⟩
    intro hne
    unfold Table.snapshot_by_name at hname
    cases hfind : s.table.metadata.refs.find? (fun kv => kv.fst == name) with
    | none => rw [hfind] at hname; exact absurd hname (by simp)
    | some kv =>
      rw [hfind] at hname
      have hkey : snap.snapshot_id = kv.snd.snapshot_id := by
        unfold Table.snapshot_by_id at hname
        have hp := List.find?_some hname
        simpa using hp
      simp only [TableScan.snapshot, pyTruthyNat]
      rw [if_pos (by simpa using hne)]
      simp only [Option.getD_some]
      rw [hkey]
      exact hname
  · intro h hnone
    simp [TableScan.use_ref, h, hnone, Except.isOk, Except.toBool]
  · intro h
    simp [TableScan.snapshot, h]

/-- C7, witness: on the two-branch table, `scan().use_ref("stage")`
resolves to snapshot 17. -/
theorem c7_use_ref_witness :
    c7BaseScan.use_ref "stage" = .ok { c7BaseScan with snapshot_id := some 17 } ∧
    ({ c7BaseScan with snapshot_id := some 17 } : TableScan).snapshot = some c7Snapshot17 := by
  have h := (c7_use_ref_resolution c7BaseScan "stage").2.1 c7Snapshot17 rfl rfl
  exact ⟨h.1, h.2 (by decide)⟩

/-- C8: `commit_transaction` on a transaction with no staged updates
returns the input table unchanged and never builds or sends a commit
request (`none` in the second component records that the catalog's
commit was not invoked); with at least one staged update exactly the
request over the stripped identifier, the staged requirements and the
staged updates is sent. -/
theorem c8_commit_transaction_no_op (t : Transaction)
    (commitFn : CommitTableRequest → CommitTableResponse) :
    (t._updates = [] → t.commit_transaction commitFn = (t._table, none)) ∧
    (t._updates ≠ [] →
      (t.commit_transaction commitFn).2 =
        some (CommitTableRequest.mk (t._table.identifier.drop 1)
          t._requirements t._updates)) := by
  constructor
  · intro h
    simp [Transaction.commit_transaction, h]
  · intro h
    have hlen : t._updates.length > 0 := List.length_pos.mpr h
    simp [Transaction.commit_transaction, hlen]

/-- Fixture for C8: a table handle. -/
def c8Table : Table := ⟨["c", "db", "t"], ⟨[], [], none⟩, "s3://m.json"⟩

/-- Fixture for C8: a transaction with no staged updates. -/
def c8EmptyTransaction : Transaction := ⟨c8Table, [], []⟩

/-- Fixture for C8: a transaction with one staged update. -/
def c8StagedTransaction : Transaction := ⟨c8Table, [TableUpdate.setLocation "s3://y"], []⟩

/-- Fixture for C8: a catalog commit function. -/
def c8CommitFn : CommitTableRequest → CommitTableResponse :=
  fun _ => ⟨⟨[], [], none⟩, "s3://m2.json"⟩

/-- C8, witness: the empty transaction returns the table with no request
sent; the one-update transaction sends the expected request. -/
theorem c8_commit_transaction_witness :
    c8EmptyTransaction.commit_transaction c8CommitFn = (c8Table, none) ∧
    (c8StagedTransaction.commit_transaction c8CommitFn).2 =
      some (CommitTableRequest.mk ["db", "t"] [] [TableUpdate.setLocation "s3://y"]) := by
  refine ⟨(c8_commit_transaction_no_op c8EmptyTransaction c8CommitFn).1 rfl, ?_⟩
  exact (c8_commit_transaction_no_op c8StagedTransaction c8CommitFn).2
    (by simp [c8StagedTransaction])

/-- C10: `filter` returns a scan whose row filter is the conjunction of
the current filter and the (parsed) argument while every other field is
unchanged (the original scan is untouched: `update` builds a new scan
object), and repeated filtering accumulates conjunctions. -/
theorem c10_filter_conjoins_and_preserves (parseStr : String → BooleanExpression)
    (s : TableScan) (e1 e2 : RowFilterArg) :
    (s.filter parseStr e1).row_filter = .and s.row_filter (parseRowFilter parseStr e1) ∧
    (s.filter parseStr e1).table = s.table ∧
    (s.filter parseStr e1).selected_fields = s.selected_fields ∧
    (s.filter parseStr e1).case_sensitive = s.case_sensitive ∧
    (s.filter parseStr e1).snapshot_id = s.snapshot_id ∧
    (s.filter parseStr e1).options = s.options ∧
    (s.filter parseStr e1).limit = s.limit ∧
    ((s.filter parseStr e1).filter parseStr e2).row_filter =
      .and (.and s.row_filter (parseRowFilter parseStr e1)) (parseRowFilter parseStr e2) :=
  ⟨rfl, rfl, rfl, rfl, rfl, rfl, rfl, rfl⟩

/-- An entry whose content kind is neither DATA nor POSITION_DELETES:
the entries on which the content loop of `plan_files` aborts. -/
def unknownOrEqualityDelete (x : ManifestEntry) : Bool :=
  !(x.data_file.content == DataFileContent.DATA ||
    x.data_file.content == DataFileContent.POSITION_DELETES)

theorem partitionEntries_error_of_offender (l : List ManifestEntry) (e : ManifestEntry)
    (h : l.find? unknownOrEqualityDelete = some e) :
    partitionEntries l = .error
      (if e.data_file.content == DataFileContent.EQUALITY_DELETES then
        PyError.unsupportedFeature
       else PyError.invariantViolation) := by
  induction l with
  | nil => simp at h
  | cons a t ih =>
    by_cases ha : unknownOrEqualityDelete a = true
    · rw [List.find?_cons_of_pos _ ha] at h
      obtain rfl : a = e := by injection h
      have ha' : (a.data_file.content == DataFileContent.DATA) = false ∧
          (a.data_file.content == DataFileContent.POSITION_DELETES) = false := by
        simpa [unknownOrEqualityDelete] using ha
      by_cases h2 : (a.data_file.content == DataFileContent.EQUALITY_DELETES) = true
      · simp [partitionEntries, ha'.1, ha'.2, h2]
      · simp [partitionEntries, ha'.1, ha'.2, h2]
    · rw [List.find?_cons_of_neg _ (by simpa using ha)] at h
      have hrec := ih h
      have hor : (a.data_file.content == DataFileContent.DATA) = true ∨
          (a.data_file.content == DataFileContent.POSITION_DELETES) = true := by
        rcases Bool.eq_false_or_eq_true (a.data_file.content == DataFileContent.DATA) with
          h0 | h0
        · exact Or.inl h0
        · rcases Bool.eq_false_or_eq_true
            (a.data_file.content == DataFileContent.POSITION_DELETES) with h1 | h1
          · exact Or.inr h1
          · exact absurd (by simp [unknownOrEqualityDelete, h0, h1]) ha
      rcases hor with h0 | h1
      · simp [partitionEntries, h0, hrec, Except.map]
      · by_cases h0 : (a.data_file.content == DataFileContent.DATA) = true
        · simp [partitionEntries, h0, hrec, Except.map]
        · simp [partitionEntries, h0, h1, hrec, Except.map]

/-- C9: whenever an entry surviving pruning and entry filtering has a
content kind other than DATA or POSITION_DELETES, `plan_files` aborts
with no tasks; the error of the first such entry is UnsupportedFeature
for EQUALITY_DELETES and InvariantViolation for any unknown content
kind. -/
theorem c9_equality_deletes_abort (scan : TableScan)
    (manifest_eval : Nat → ManifestFile → Bool)
    (partition_eval : Nat → DataFile → Bool)
    (metrics_eval : DataFile → Bool) (e : ManifestEntry)
    (h : (survivingEntries scan manifest_eval partition_eval metrics_eval).find?
      unknownOrEqualityDelete = some e) :
    planFiles scan manifest_eval partition_eval metrics_eval = .error
      (if e.data_file.content == DataFileContent.EQUALITY_DELETES then
        PyError.unsupportedFeature
       else PyError.invariantViolation) := by
  unfold planFiles
  cases hsnap : scan.snapshot with
  | none =>
    have hempty : survivingEntries scan manifest_eval partition_eval metrics_eval = [] := by
      simp [survivingEntries, survivingManifests, hsnap, minDataFileSequenceNumber,
        INITIAL_SEQUENCE_NUMBER]
    rw [hempty] at h
    simp at h
  | some snap =>
    rw [partitionEntries_error_of_offender _ e h]

/-- Fixture for C9: an equality-delete data file. -/
def c9DataFileEq : DataFile := ⟨2, "eq-del.parquet", 10, 3, none, none⟩

/-- Fixture for C9: its manifest entry. -/
def c9Entry : ManifestEntry := ⟨1, some 6, c9DataFileEq⟩

/-- Fixture for C9: a deletes manifest holding the entry. -/
def c9Manifest : ManifestFile := ⟨.deletes, some 6, some 6, 0, [c9Entry]⟩

/-- Fixture for C9: a snapshot holding the manifest. -/
def c9Snapshot : Snapshot := ⟨3, none, [c9Manifest]⟩

/-- Fixture for C9: the table. -/
def c9Table : Table := ⟨["c", "d", "t"], ⟨[c9Snapshot], [], some 3⟩, "loc"⟩

/-- Fixture for C9: a scan of the current snapshot. -/
def c9Scan : TableScan := ⟨c9Table, .alwaysTrue, ["*"], true, none, [], none⟩

/-- C9, witness: planning a snapshot containing an equality-delete entry
aborts with UnsupportedFeature. -/
theorem c9_equality_deletes_witness :
    planFiles c9Scan (fun _ _ => true) (fun _ _ => true) (fun _ => true) =
      .error PyError.unsupportedFeature :=
  c9_equality_deletes_abort c9Scan (fun _ _ => true) (fun _ _ => true)
    (fun _ => true) c9Entry rfl

theorem sorted_dropWhile_key_gt (k : Nat) (l : List ManifestEntry)
    (hs : List.Sorted entryLE l) (e : ManifestEntry)
    (he : e ∈ l.dropWhile (fun x => decide (entryKey x ≤ k))) : k < entryKey e := by
  induction l with
  | nil => simp at he
  | cons a t ih =>
    rw [List.dropWhile_cons] at he
    by_cases hak : entryKey a ≤ k
    · rw [if_pos (by simp [hak])] at he
      exact ih (List.Sorted.of_cons hs) he
    · rw [if_neg (by simp [hak])] at he
      rcases List.mem_cons.mp he with rfl | het
      · omega
      · have hle : entryLE a e := (List.sorted_cons.mp hs).1 e het
        unfold entryLE at hle
        omega

theorem matchDeletes_mem (d : ManifestEntry) (sorted_deletes : List ManifestEntry)
    (hs : List.Sorted entryLE sorted_deletes) (df : DataFile)
    (hdf : df ∈ matchDeletesToDatafile d sorted_deletes) :
    posDeleteEvalFilePath d.data_file.file_path df = true ∧
    ∃ e ∈ sorted_deletes, e.data_file = df ∧ entryKey d < entryKey e := by
  unfold matchDeletesToDatafile at hdf
  by_cases hlen :
      (sorted_deletes.dropWhile (fun e => decide (entryKey e ≤ entryKey d))).length > 0
  · rw [if_pos hlen] at hdf
    rcases List.mem_map.mp hdf with ⟨e, he, rfl⟩
    rcases List.mem_filter.mp he with ⟨hemem, heval⟩
    exact ⟨heval, e, (List.dropWhile_sublist _).subset hemem, rfl,
      sorted_dropWhile_key_gt _ _ hs e hemem⟩
  · rw [if_neg hlen] at hdf
    simp at hdf

theorem partitionEntries_ok_mem (l : List ManifestEntry)
    (r : List ManifestEntry × List ManifestEntry) (h : partitionEntries l = .ok r) :
    (∀ x ∈ r.1, x ∈ l ∧ (x.data_file.content == DataFileContent.DATA) = true) ∧
    (∀ x ∈ r.2, x ∈ l ∧ (x.data_file.content == DataFileContent.POSITION_DELETES) = true) := by
  induction l generalizing r with
  | nil =>
    simp only [partitionEntries] at h
    injection h with h'
    subst h'
    simp
  | cons a t ih =>
    by_cases h0 : (a.data_file.content == DataFileContent.DATA) = true
    · simp only [partitionEntries, h0, if_true] at h
      cases hpt : partitionEntries t with
      | error err => rw [hpt] at h; simp [Except.map] at h
      | ok r' =>
        rw [hpt] at h
        simp only [Except.map] at h
        injection h with h'
        subst h'
        obtain ⟨ih1, ih2⟩ := ih r' hpt
        refine ⟨?_, ?_⟩
        · intro x hx
          rcases List.mem_cons.mp hx with rfl | hx'
          · exact ⟨List.mem_cons_self _ _, h0⟩
          · exact ⟨List.mem_cons_of_mem _ (ih1 x hx').1, (ih1 x hx').2⟩
        · intro x hx
          exact ⟨List.mem_cons_of_mem _ (ih2 x hx).1, (ih2 x hx).2⟩
    · by_cases h1 : (a.data_file.content == DataFileContent.POSITION_DELETES) = true
      · simp only [partitionEntries, h0, h1, if_true, if_false, Bool.false_eq_true] at h
        cases hpt : partitionEntries t with
        | error err => rw [hpt] at h; simp [Except.map] at h
        | ok r' =>
          rw [hpt] at h
          simp only [Except.map] at h
          injection h with h'
          subst h'
          obtain ⟨ih1, ih2⟩ := ih r' hpt
          refine ⟨?_, ?_⟩
          · intro x hx
            exact ⟨List.mem_cons_of_mem _ (ih1 x hx).1, (ih1 x hx).2⟩
          · intro x hx
            rcases List.mem_cons.mp hx with rfl | hx'
            · exact ⟨List.mem_cons_self _ _, h1⟩
            · exact ⟨List.mem_cons_of_mem _ (ih2 x hx').1, (ih2 x hx').2⟩
      · by_cases h2 : (a.data_file.content == DataFileContent.EQUALITY_DELETES) = true
        · simp [partitionEntries, h0, h1, h2] at h
        · simp [partitionEntries, h0, h1, h2] at h

/-- C1: every FileScanTask emitted by `plan_files` pairs a data entry's
file with delete files that (a) the inclusive metrics evaluator accepts
for the predicate `file_path = data_file.file_path` against the delete
file's file_path column bounds, and (b) come from positional-delete
entries whose sort key (`data_sequence_number or INITIAL_SEQUENCE_NUMBER`)
is strictly greater than the data entry's — the upper-bound slice of the
ascending SortedList. -/
theorem c1_delete_applicability (scan : TableScan)
    (manifest_eval : Nat → ManifestFile → Bool)
    (partition_eval : Nat → DataFile → Bool)
    (metrics_eval : DataFile → Bool) (tasks : List FileScanTask)
    (h : planFiles scan manifest_eval partition_eval metrics_eval = .ok tasks)
    (task : FileScanTask) (ht : task ∈ tasks) :
    ∃ d ∈ survivingEntries scan manifest_eval partition_eval metrics_eval,
      (d.data_file.content == DataFileContent.DATA) = true ∧
      task.file = d.data_file ∧
      ∀ df ∈ task.delete_files,
        posDeleteEvalFilePath d.data_file.file_path df = true ∧
        ∃ e ∈ survivingEntries scan manifest_eval partition_eval metrics_eval,
          (e.data_file.content == DataFileContent.POSITION_DELETES) = true ∧
          e.data_file = df ∧ entryKey d < entryKey e := by
  unfold planFiles at h
  cases hsnap : scan.snapshot with
  | none =>
    rw [hsnap] at h
    injection h with h'
    subst h'
    simp at ht
  | some snap =>
    rw [hsnap] at h
    cases hpe : partitionEntries
        (survivingEntries scan manifest_eval partition_eval metrics_eval) with
    | error err => rw [hpe] at h; cases h
    | ok r =>
      rw [hpe] at h
      injection h with h'
      subst h'
      obtain ⟨hmem1, hmem2⟩ := partitionEntries_ok_mem _ r hpe
      rcases List.mem_map.mp ht with ⟨d, hd, rfl⟩
      refine ⟨d, (hmem1 d hd).1, (hmem1 d hd).2, rfl, ?_⟩
      intro df hdf
      obtain ⟨heval, e, hesorted, hedf, hegt⟩ := matchDeletes_mem d
        (List.insertionSort entryLE r.2) (List.sorted_insertionSort entryLE r.2) df hdf
      have her : e ∈ r.2 := (List.perm_insertionSort entryLE r.2).mem_iff.mp hesorted
      exact ⟨heval, e, (hmem2 e her).1, (hmem2 e her).2, hedf, hegt⟩

/-- Fixture for C1: a data file `a/1.parquet`. -/
def c1DataFile : DataFile := ⟨0, "a/1.parquet", 100, 10, none, none⟩

/-- Fixture for C1: its manifest entry at sequence number 5. -/
def c1DataEntry : ManifestEntry := ⟨1, some 5, c1DataFile⟩

/-- Fixture for C1: a positional delete file with file_path bounds
["a/0.parquet", "a/2.parquet"]. -/
def c1DeleteFile7 : DataFile := ⟨1, "d7.parquet", 10, 3, some "a/0.parquet", some "a/2.parquet"⟩

/-- Fixture for C1: its entry at sequence number 7 (applicable). -/
def c1DeleteEntry7 : ManifestEntry := ⟨1, some 7, c1DeleteFile7⟩

/-- Fixture for C1: a second positional delete file with the same
bounds. -/
def c1DeleteFile4 : DataFile := ⟨1, "d4.parquet", 10, 3, some "a/0.parquet", some "a/2.parquet"⟩

/-- Fixture for C1: its entry at sequence number 4 (excluded, too
old). -/
def c1DeleteEntry4 : ManifestEntry := ⟨1, some 4, c1DeleteFile4⟩

/-- Fixture for C1: the data manifest. -/
def c1DataManifest : ManifestFile := ⟨.data, some 5, some 5, 0, [c1DataEntry]⟩

/-- Fixture for C1: the deletes manifest holding both delete entries. -/
def c1DeleteManifest : ManifestFile :=
  ⟨.deletes, some 7, some 4, 0, [c1DeleteEntry7, c1DeleteEntry4]⟩

/-- Fixture for C1: the snapshot. -/
def c1Snapshot : Snapshot := ⟨9, none, [c1DataManifest, c1DeleteManifest]⟩

/-- Fixture for C1: the table. -/
def c1Table : Table := ⟨["c", "d", "t"], ⟨[c1Snapshot], [], some 9⟩, "loc"⟩

/-- Fixture for C1: a scan of the current snapshot. -/
def c1Scan : TableScan := ⟨c1Table, .alwaysTrue, ["*"], true, none, [], none⟩

/-- Fixture for C1: the task the plan emits — the sequence-7 delete is
matched, the sequence-4 delete is excluded. -/
def c1Task : FileScanTask := FileScanTask.mk c1DataFile [c1DeleteFile7] 0 100

/-- C1, witness: on the spec's delete-pairing scenario (data at sequence
5, deletes at sequences 7 and 4 with covering file_path bounds) the
theorem instantiates: the emitted task carries exactly the sequence-7
delete, whose key exceeds 5 and whose bounds admit the data path. -/
theorem c1_delete_applicability_witness :
    planFiles c1Scan (fun _ _ => true) (fun _ _ => true) (fun _ => true) =
      .ok [c1Task] ∧
    (∃ d ∈ survivingEntries c1Scan (fun _ _ => true) (fun _ _ => true) (fun _ => true),
      (d.data_file.content == DataFileContent.DATA) = true ∧
      c1Task.file = d.data_file ∧
      ∀ df ∈ c1Task.delete_files,
        posDeleteEvalFilePath d.data_file.file_path df = true ∧
        ∃ e ∈ survivingEntries c1Scan (fun _ _ => true) (fun _ _ => true) (fun _ => true),
          (e.data_file.content == DataFileContent.POSITION_DELETES) = true ∧
          e.data_file = df ∧ entryKey d < entryKey e) :=
  ⟨rfl,
   c1_delete_applicability c1Scan (fun _ _ => true) (fun _ _ => true) (fun _ => true)
     [c1Task] rfl c1Task (List.mem_singleton.mpr rfl)⟩
